import Mathlib

/-!
Verification of the `tc3625` driver (host-side driver for the TC-36-25
thermoelectric cooler temperature controller) against its natural-language
specification.

The Python sources `tc3625_serial.py` (frame codec and low-level serial
protocol) and `tc3625.py` (typed register-access layer and retrying facade)
are shallowly embedded below.  Machine integers are modelled as `Nat`/`Int`
(Python integers are unbounded), Python floats are modelled as `ℚ` (every
value exercised by the claims is exactly representable, so no float
rounding is involved), strings as Lean `String`/`List Char`, and fallible
code returns `Except`/`Option`.  Device I/O is modelled by explicit traces
of issued write transactions and by oracle functions for replies.
-/

/-! ## Frame codec: `tc3625_serial.py` utility functions -/

/-- Lowercase hex digit for `n < 16`, as produced by Python `'%x'` formatting. -/
def hexDigitChar (n : Nat) : Char :=
  Char.ofNat (if n < 10 then 48 + n else 87 + n)

/-- Fuel-indexed rendering of `n` in lowercase hex, most significant digit
first, mirroring Python `'%x' % n` (which never left-pads).  `fuel > n`
suffices, see `hexChars_fuel`. -/
def hexChars : Nat → Nat → List Char
  | 0, _ => []
  | fuel + 1, n =>
    if n < 16 then [hexDigitChar n]
    else hexChars fuel (n / 16) ++ [hexDigitChar (n % 16)]

/-- `'%x' % n`: lowercase hex rendering of `n`, no padding (`"0"` for 0). -/
def hexStr (n : Nat) : List Char :=
  hexChars (n + 1) n

/-- Python `s[-k:]` on a list: the last `k` elements (all of them when the
list is shorter than `k`). -/
def takeLast (k : Nat) (l : List Char) : List Char :=
  l.drop (l.length - k)

/-- Python `s[:-k]` on a list: everything except the last `k` elements. -/
def dropLastN (k : Nat) (l : List Char) : List Char :=
  l.take (l.length - k)

/-- Sum of the character ordinals of a string (the running `cs` accumulator
of `get_checksum`).  Python `ord` on the byte strings used by the protocol
is the character code, i.e. `Char.toNat`. -/
def csum (s : String) : Nat :=
  s.data.foldl (fun a c => a + c.toNat) 0

/-- `get_checksum` (tc3625_serial.py lines 647-655): render the ordinal sum
in lowercase hex with `'%x'` and keep the last two characters (`cs_hex[-2:]`).
Note the source never left-pads: for sums below 16 the result is a single
character. -/
def get_checksum (s : String) : String :=
  ⟨takeLast 2 (hexStr (csum s))⟩

/-- `to_twoscomp` (tc3625_serial.py lines 658-668): two's-complement
8-character hex encoding, `'%08x' % (16**8 + x if x < 0 else x)`.
(The `Int.toNat` is exact for every `x ≥ -16^8`, which covers the
documented signed 32-bit domain.) -/
def to_twoscomp (x : Int) : String :=
  let x2c : Int := if x < 0 then 16 ^ 8 + x else x
  let digs := hexStr x2c.toNat
  ⟨List.replicate (8 - digs.length) '0' ++ digs⟩

/-- Value of a single hex digit character, as accepted by Python
`int(-, 16)` (which also accepts uppercase). -/
def hexCharVal (c : Char) : Option Nat :=
  if 48 ≤ c.toNat ∧ c.toNat ≤ 57 then some (c.toNat - 48)
  else if 97 ≤ c.toNat ∧ c.toNat ≤ 102 then some (c.toNat - 87)
  else if 65 ≤ c.toNat ∧ c.toNat ≤ 70 then some (c.toNat - 55)
  else none

/-- Parse a big-endian hex digit string, `none` on any non-digit
(Python `int(-, 16)` raises `ValueError`). -/
def parseHexChars (l : List Char) : Option Nat :=
  l.foldl
    (fun acc c =>
      match acc, hexCharVal c with
      | some a, some d => some (16 * a + d)
      | _, _ => none)
    (some 0)

/-- `from_twoscomp` (tc3625_serial.py lines 671-681): parse as unsigned hex
and subtract `16^8` when the value is at least `16**8/2` (Python integer
division, i.e. `2^31`).  `none` models the `ValueError` that `int(x, 16)`
raises on a malformed string. -/
def from_twoscomp (s : String) : Option Int :=
  if s.data = [] then none
  else
    match parseHexChars s.data with
    | none => none
    | some x2c =>
      some (if 16 ^ 8 / 2 ≤ x2c then (x2c : Int) - 16 ^ 8 else (x2c : Int))

/-! ## Serial protocol constants and tables (`tc3625_serial.py`) -/

def ADDRESS : String := "00"

def STX : Char := Char.ofNat 0x2a

def ETX : Char := Char.ofNat 0x0d

def ACK : Char := Char.ofNat 0x5e

/-- One entry of `SERIAL_CMDS`: the optional write and read command codes
(the long human-readable description strings are irrelevant to the claims
and omitted). -/
structure SerialCmd where
  write : Option String
  read : Option String
deriving DecidableEq

/-- Lookup in a Python dict built from an association list by successive
insertion: the *last* binding of a key wins, `none` models `KeyError`. -/
def pyDictGet {α β : Type} [DecidableEq α] (l : List (α × β)) (k : α) : Option β :=
  l.foldl (fun acc p => if p.1 = k then some p.2 else acc) none

/-- `SERIAL_CMDS` (tc3625_serial.py lines 315-496), in source order. -/
def SERIAL_CMDS : List (String × SerialCmd) := [
  ("input1", ⟨none, some "01"⟩),
  ("desired control value", ⟨none, some "03"⟩),
  ("power output", ⟨none, some "02"⟩),
  ("alarm status", ⟨none, some "05"⟩),
  ("input2", ⟨none, some "06"⟩),
  ("output current counts", ⟨none, some "07"⟩),
  ("alarm type", ⟨some "28", some "41"⟩),
  ("set type define", ⟨some "29", some "42"⟩),
  ("sensor type", ⟨some "2a", some "43"⟩),
  ("control type", ⟨some "2b", some "44"⟩),
  ("control output polarity", ⟨some "2c", some "45"⟩),
  ("power on/off", ⟨some "2d", some "46"⟩),
  ("output shutdown if alarm", ⟨some "2e", some "47"⟩),
  ("fixed desired control setting", ⟨some "1c", some "50"⟩),
  ("proportional bandwidth", ⟨some "1d", some "51"⟩),
  ("integral gain", ⟨some "1e", some "52"⟩),
  ("derivative gain", ⟨some "1f", some "53"⟩),
  ("low external set range", ⟨some "20", some "54"⟩),
  ("high external set range", ⟨some "21", some "55"⟩),
  ("alarm deadband", ⟨some "22", some "56"⟩),
  ("high alarm setting", ⟨some "23", some "57"⟩),
  ("low alarm setting", ⟨some "24", some "58"⟩),
  ("control deadband setting", ⟨some "25", some "59"⟩),
  ("input1 offset", ⟨some "26", some "5a"⟩),
  ("input2 offset", ⟨some "27", some "5b"⟩),
  ("heat multiplier", ⟨some "0c", some "5c"⟩),
  ("cool multiplier", ⟨some "0d", some "5d"⟩),
  ("over current count compare value", ⟨some "0e", some "5e"⟩),
  ("alarm latch enable", ⟨some "2f", some "48"⟩),
  ("alarm latch request", ⟨some "33", none⟩),
  ("choose sensor for alarm function", ⟨some "31", some "4a"⟩),
  ("temperature working units", ⟨some "32", some "4b"⟩),
  ("eeprom write enable", ⟨some "34", some "4c"⟩),
  ("over current continuous", ⟨some "35", some "4d"⟩),
  ("over current restart attempts", ⟨some "0f", some "5f"⟩),
  ("JP3 display enable", ⟨some "36", some "4e"⟩)]

/-- Errors of the low-level reply handling shared by `TC3625_Serial.read`
(lines 631-638) and `TC3625_Serial.write` (lines 600-609):
`checksumMismatch` is the `IOError "return checksum ... does not match"`,
`badReceiveChecksum` the `IOError "sent checksum incorrect"` raised on the
all-`X` sentinel, and `valueError` the `ValueError` that `int(-, 16)` would
raise on a non-hex value field. -/
inductive SerErr where
  | checksumMismatch
  | badReceiveChecksum
  | valueError
deriving DecidableEq

/-- The shared reply-handling tail of `TC3625_Serial.read`/`write`:
`cs = get_checksum(ret[1:-3]); cs_ret = ret[-3:-1]`, checksum comparison
first, then the `'X'*8` sentinel test, then `from_twoscomp(ret[1:-3])`. -/
def parseReply (ret : List Char) : Except SerErr Int :=
  let value := dropLastN 3 (ret.drop 1)
  let cs := get_checksum ⟨value⟩
  let cs_ret := takeLast 2 (dropLastN 1 ret)
  if cs.data ≠ cs_ret then .error .checksumMismatch
  else if value = List.replicate 8 'X' then .error .badReceiveChecksum
  else
    match from_twoscomp ⟨value⟩ with
    | some z => .ok z
    | none => .error .valueError

/-- The 16-byte send frame packed by `TC3625_Serial.write` (lines 587-598):
`STX ++ address ++ write_code ++ to_twoscomp(val) ++ checksum ++ ETX`.
`none` models the `KeyError`/`ValueError` on an unknown or write-less
command.  (`1 << bit`-style notes aside, the `int(val)` coercion of the
source is applied by the callers in this model, which pass an `Int`.) -/
def serialWriteFrame (cmd : String) (val : Int) : Option (List Char) :=
  match pyDictGet SERIAL_CMDS cmd with
  | none => none
  | some sc =>
    match sc.write with
    | none => none
    | some cc =>
      let val2c := to_twoscomp val
      let cs := get_checksum (ADDRESS ++ cc ++ val2c)
      some ([STX] ++ ADDRESS.data ++ cc.data ++ val2c.data ++ cs.data ++ [ETX])

/-- The 8-byte send frame packed by `TC3625_Serial.read` (lines 621-627). -/
def serialReadFrame (cmd : String) : Option (List Char) :=
  match pyDictGet SERIAL_CMDS cmd with
  | none => none
  | some sc =>
    match sc.read with
    | none => none
    | some cc =>
      let cs := get_checksum (ADDRESS ++ cc)
      some ([STX] ++ ADDRESS.data ++ cc.data ++ cs.data ++ [ETX])

/-! ## High-level layer: `tc3625.py` conversions and tables -/

/-- Python `int(q)` for a numeric value: truncation toward zero (`Int.tdiv`
of the reduced numerator by the denominator). -/
def pyInt (q : ℚ) : Int :=
  Int.tdiv q.num (q.den : Int)

/-- `int2dec` (tc3625.py lines 534-538): `x / 100.0`. -/
def int2dec (x : Int) : ℚ :=
  (x : ℚ) / 100

/-- `dec2int` (tc3625.py lines 540-544): `int(100 * x)`. -/
def dec2int (x : ℚ) : Int :=
  pyInt (100 * x)

def AMPS_PER_COUNT : ℚ := 5 / 2

def POWER_RANGE : ℚ × ℚ := (-511 / 100, 511 / 100)

/-- `int2perc` (tc3625.py lines 546-552). -/
def int2perc (x : Int) : ℚ :=
  100 * (x : ℚ) / ((dec2int POWER_RANGE.2 : Int) : ℚ)

/-- `amp2cnt` (tc3625.py lines 554-558). -/
def amp2cnt (x : ℚ) : ℚ :=
  x / AMPS_PER_COUNT

/-- `cnt2amp` (tc3625.py lines 561-565), applied to the raw device count. -/
def cnt2amp (x : Int) : ℚ :=
  (x : ℚ) * AMPS_PER_COUNT

/-- `ALARM_VALUES` (tc3625.py lines 73-81): alarm-name → bit index. -/
def ALARM_VALUES : List (String × Nat) := [
  ("high", 0),
  ("low", 1),
  ("computer controlled", 2),
  ("current", 3),
  ("open input1", 4),
  ("open input2", 5),
  ("driver low voltage", 6)]

def ALARM_TYPES : List (String × Int) := [
  ("none", 0), ("tracking", 1), ("fixed", 2), ("computer", 3)]

def ALARM_SENSOR_TYPES : List (String × Int) := [
  ("input1", 0), ("input2", 1)]

def SETPT_TYPES : List (String × Int) := [
  ("computer", 0), ("potentiometer", 1), ("voltage", 2), ("current", 3),
  ("differential", 4), ("MP2986", 5)]

def SENSOR_TYPES : List (String × Int) := [
  ("TS141 5K", 0), ("TS67 TS136 15K", 1), ("TS91 10K", 2),
  ("TS165 230K", 3), ("TS103 50K", 4), ("YSI H TP53 10K", 5)]

def CONTROL_TYPES : List (String × Int) := [
  ("deadband", 0), ("PID", 1), ("computer", 2)]

def TEMP_TYPES : List (String × Int) := [
  ("F", 0), ("C", 1)]

def RESTART_TYPES : List (String × Int) := [
  ("max attempt", 0), ("continuous", 1)]

def OUTPUT_POLARITY_TYPES : List (String × Int) := [
  ("heat wp1+ wp2-", 0), ("heat wp2+ wp1-", 1)]

def ON_OFF_TYPES : List (String × Int) := [
  ("on", 1), ("off", 0)]

def PROPORTIONAL_BANDWIDTH_RANGE : ℚ × ℚ := (0, 1000)

def INTEGRAL_GAIN_RANGE : ℚ × ℚ := (0, 10)

def DERIVATIVE_GAIN_RANGE : ℚ × ℚ := (0, 10)

def MULTIPLIER_RANGE : ℚ × ℚ := (0, 2)

def OVER_CURRENT_RANGE : ℚ × ℚ := (0, 40)

def RESTART_ATTEMPT_RANGE : ℚ × ℚ := (0, 30000)

/-! ## Typed accessor layer (`tc3625.py` classes) -/

/-- A value passed to or returned from the facade: numbers (Python
ints/floats, modelled as ℚ) or names (strings). -/
inductive Value where
  | num (q : ℚ)
  | str (s : String)
deriving DecidableEq

/-- Errors of the typed layer.  `unknownProperty`/`unsettableProperty` are
the `ValueError`s of `TC3625.set`, `outOfRange` the `IOError 'value ...
out of range'` of `Set_Num`/`Get_Num`, `unknownEnumValue` the `IOError
'unknown type %d'` of `Get_Type`, `invalidPropertyValue` the `ValueError
'unknown type %s'` of `Set_Type` (also covering the `KeyError` a non-string
key would raise), and `badValueType` a `TypeError`-class failure outside
the claims' scope (calling `Set_NoArg` with an argument, or `Set_Num` with
a non-number, whose CPython2 cross-type comparison is not modelled). -/
inductive Err where
  | unknownProperty (k : String)
  | unsettableProperty (k : String)
  | outOfRange
  | unknownEnumValue
  | invalidPropertyValue
  | badValueType
deriving DecidableEq

/-- One issued device write transaction: serial command name and the
integer value handed to `TC3625_Serial.write` (after `int()` coercion). -/
abbrev DevWrite := String × Int

/-- Result of a get accessor. -/
inductive GetResult where
  | num (q : ℚ)
  | typ (s : String)
  | mask (flag : Bool) (names : List String)
deriving DecidableEq

/-- The value-to-name step of `Get_Type.__call__` (tc3625.py lines 579-587):
look the raw integer up in the inverted mapping
`itype = dict([[v,k] for k,v in type.items()])`; a miss is the
`IOError 'unknown type %d'`. -/
def getTypeOnRaw (type : List (String × Int)) (val : Int) : Except Err String :=
  match pyDictGet (type.map fun p => (p.2, p.1)) val with
  | some s => .ok s
  | none => .error .unknownEnumValue

/-- The bit-testing step of `Get_Mask.__call__` (tc3625.py lines 598-608):
for each configured name, test bit `maskdict[k]` of the raw value with
`(1 << bit) & val != 0` (here `1 << bit = 2 ^ bit`), collecting matching
names in iteration order (modelled as the table's declaration order). -/
def getMaskOnRaw (maskdict : List (String × Nat)) (val : Int) : Bool × List String :=
  maskdict.foldl
    (fun st p => if Int.land (2 ^ p.2) val ≠ 0 then (true, st.2 ++ [p.1]) else st)
    (false, [])

/-- The conversion/validation step of `Get_Num.__call__`
(tc3625.py lines 620-630): apply `convert` if configured, then the
range check `val < minval or val > maxval`. -/
def getNumOnRaw (convert : Option (Int → ℚ)) (range : Option (ℚ × ℚ))
    (raw : Int) : Except Err ℚ :=
  let val : ℚ := match convert with | none => (raw : ℚ) | some f => f raw
  match range with
  | none => .ok val
  | some (minval, maxval) =>
    if val < minval ∨ maxval < val then .error .outOfRange else .ok val

/-- Get accessor descriptors: `Get_Num`, `Get_Type`, `Get_Mask`. -/
inductive GetAccessor where
  | num (convert : Option (Int → ℚ)) (range : Option (ℚ × ℚ))
  | typ (type : List (String × Int))
  | mask (maskdict : List (String × Nat))

/-- Apply a get accessor to the raw integer read from the device. -/
def GetAccessor.onRaw : GetAccessor → Int → Except Err GetResult
  | .num convert range, raw => (getNumOnRaw convert range raw).map GetResult.num
  | .typ t, raw => (getTypeOnRaw t raw).map GetResult.typ
  | .mask md, raw => .ok (.mask (getMaskOnRaw md raw).1 (getMaskOnRaw md raw).2)

/-- Set accessor descriptors: `Set_Num`, `Set_Type`, `Set_NoArg`. -/
inductive SetAccessor where
  | num (convert : Option (ℚ → ℚ)) (range : Option (ℚ × ℚ))
  | typ (type : List (String × Int))
  | noArg

/-- Invoke a set accessor as `TC3625.set` does, returning the trace of
issued device writes and the error, if any.  `Set_Num.__call__`
(tc3625.py lines 662-671) checks the range *before* applying `convert`
and before any I/O; `Set_Type.__call__` (lines 641-650) maps the name
through its table; a transaction reaching `_set_value` is recorded as one
`DevWrite` carrying the `int()`-coerced value `TC3625_Serial.write` sends. -/
def SetAccessor.call : SetAccessor → String → Value → List DevWrite × Option Err
  | .num convert range, cmd, .num val =>
    (match range with
     | some (minval, maxval) =>
       if val < minval ∨ maxval < val then ([], some .outOfRange)
       else
         let v : ℚ := match convert with | none => val | some f => f val
         ([(cmd, pyInt v)], none)
     | none =>
       let v : ℚ := match convert with | none => val | some f => f val
       ([(cmd, pyInt v)], none))
  | .num _ _, _, _ => ([], some .badValueType)
  | .typ t, cmd, .str s =>
    (match pyDictGet t s with
     | some i => ([(cmd, i)], none)
     | none => ([], some .invalidPropertyValue))
  | .typ _, _, _ => ([], some .invalidPropertyValue)
  | .noArg, _, _ => ([], some .badValueType)

/-- One entry of `METHOD_DICT`: optional get and set accessors plus the
bound serial command name. -/
structure MethodEntry where
  get : Option GetAccessor := none
  set : Option SetAccessor := none
  cmd : String

/-- The set-side conversion used throughout `METHOD_DICT`: `dec2int`
(an integer, carried as ℚ until the `int()` at the transport boundary). -/
def dec2intConv : ℚ → ℚ := fun x => ((dec2int x : Int) : ℚ)

/-- `METHOD_DICT` (tc3625.py lines 687-1081), in source order. -/
def METHOD_DICT : List (String × MethodEntry) := [
  ("input1", { get := some (.num (some int2dec) none), cmd := "input1" }),
  ("input2", { get := some (.num (some int2dec) none), cmd := "input2" }),
  ("control value",
    { get := some (.num (some int2dec) none), cmd := "desired control value" }),
  ("power output",
    { get := some (.num (some int2perc) none), cmd := "power output" }),
  ("alarm status",
    { get := some (.mask ALARM_VALUES), cmd := "alarm status" }),
  ("output current",
    { get := some (.num (some cnt2amp) none), cmd := "output current counts" }),
  ("alarm type",
    { get := some (.typ ALARM_TYPES), set := some (.typ ALARM_TYPES),
      cmd := "alarm type" }),
  ("setpt type",
    { get := some (.typ SETPT_TYPES), set := some (.typ SETPT_TYPES),
      cmd := "set type define" }),
  ("sensor type",
    { get := some (.typ SENSOR_TYPES), set := some (.typ SENSOR_TYPES),
      cmd := "sensor type" }),
  ("control type",
    { get := some (.typ CONTROL_TYPES), set := some (.typ CONTROL_TYPES),
      cmd := "control type" }),
  ("output polarity",
    { get := some (.typ OUTPUT_POLARITY_TYPES),
      set := some (.typ OUTPUT_POLARITY_TYPES),
      cmd := "control output polarity" }),
  ("power state",
    { get := some (.typ ON_OFF_TYPES), set := some (.typ ON_OFF_TYPES),
      cmd := "power on/off" }),
  ("shutdown if alarm",
    { get := some (.typ ON_OFF_TYPES), set := some (.typ ON_OFF_TYPES),
      cmd := "output shutdown if alarm" }),
  ("fixed control setting",
    { get := some (.num (some int2dec) none),
      set := some (.num (some dec2intConv) none),
      cmd := "fixed desired control setting" }),
  ("setpt",
    { get := some (.num (some int2dec) none),
      set := some (.num (some dec2intConv) none),
      cmd := "fixed desired control setting" }),
  ("proportional bandwidth",
    { get := some (.num (some int2dec) (some PROPORTIONAL_BANDWIDTH_RANGE)),
      set := some (.num (some dec2intConv) (some PROPORTIONAL_BANDWIDTH_RANGE)),
      cmd := "proportional bandwidth" }),
  ("integral gain",
    { get := some (.num (some int2dec) (some INTEGRAL_GAIN_RANGE)),
      set := some (.num (some dec2intConv) (some INTEGRAL_GAIN_RANGE)),
      cmd := "integral gain" }),
  ("derivative gain",
    { get := some (.num (some int2dec) (some DERIVATIVE_GAIN_RANGE)),
      set := some (.num (some dec2intConv) (some DERIVATIVE_GAIN_RANGE)),
      cmd := "derivative gain" }),
  ("low external set range",
    { get := some (.num (some int2dec) none),
      set := some (.num (some dec2intConv) none),
      cmd := "low external set range" }),
  ("high external set range",
    { get := some (.num (some int2dec) none),
      set := some (.num (some dec2intConv) none),
      cmd := "high external set range" }),
  ("alarm deadband",
    { get := some (.num (some int2dec) none),
      set := some (.num (some dec2intConv) none),
      cmd := "alarm deadband" }),
  ("high alarm",
    { get := some (.num (some int2dec) none),
      set := some (.num (some dec2intConv) none),
      cmd := "high alarm setting" }),
  ("low alarm",
    { get := some (.num (some int2dec) none),
      set := some (.num (some dec2intConv) none),
      cmd := "low alarm setting" }),
  ("control deadband",
    { get := some (.num (some int2dec) none),
      set := some (.num (some dec2intConv) none),
      cmd := "control deadband setting" }),
  ("input1 offset",
    { get := some (.num (some int2dec) none),
      set := some (.num (some dec2intConv) none),
      cmd := "input1 offset" }),
  ("input2 offset",
    { get := some (.num (some int2dec) none),
      set := some (.num (some dec2intConv) none),
      cmd := "input2 offset" }),
  ("heat multiplier",
    { get := some (.num (some int2dec) (some MULTIPLIER_RANGE)),
      set := some (.num (some dec2intConv) (some MULTIPLIER_RANGE)),
      cmd := "heat multiplier" }),
  ("cool multiplier",
    { get := some (.num (some int2dec) (some MULTIPLIER_RANGE)),
      set := some (.num (some dec2intConv) (some MULTIPLIER_RANGE)),
      cmd := "cool multiplier" }),
  ("over current compare",
    { get := some (.num (some cnt2amp) (some OVER_CURRENT_RANGE)),
      set := some (.num (some amp2cnt) (some OVER_CURRENT_RANGE)),
      cmd := "over current count compare value" }),
  ("alarm latch",
    { get := some (.typ ON_OFF_TYPES), set := some (.typ ON_OFF_TYPES),
      cmd := "alarm latch enable" }),
  ("alarm latch reset",
    { set := some .noArg, cmd := "alarm latch request" }),
  ("alarm sensor",
    { get := some (.typ ALARM_SENSOR_TYPES),
      set := some (.typ ALARM_SENSOR_TYPES),
      cmd := "choose sensor for alarm function" }),
  ("working units",
    { get := some (.typ TEMP_TYPES), set := some (.typ TEMP_TYPES),
      cmd := "temperature working units" }),
  ("eeprom write",
    { get := some (.typ ON_OFF_TYPES), set := some (.typ ON_OFF_TYPES),
      cmd := "eeprom write enable" }),
  ("over current restart type",
    { get := some (.typ RESTART_TYPES), set := some (.typ RESTART_TYPES),
      cmd := "over current continuous" }),
  ("over current restart num",
    { get := some (.num (some int2dec) (some RESTART_ATTEMPT_RANGE)),
      set := some (.num (some dec2intConv) (some RESTART_ATTEMPT_RANGE)),
      cmd := "over current restart attempts" }),
  ("JP3 display",
    { get := some (.typ ON_OFF_TYPES), set := some (.typ ON_OFF_TYPES),
      cmd := "JP3 display enable" })]

namespace TC3625

/-- `TC3625.set` (tc3625.py lines 1145-1155): check the property name is
registered, fetch its set accessor (`KeyError` → 'unsettable property'),
and invoke it.  Returns the trace of issued device writes together with
the error, if any. -/
def set (prop_str : String) (val : Value) : List DevWrite × Option Err :=
  match pyDictGet METHOD_DICT prop_str with
  | none => ([], some (.unknownProperty prop_str))
  | some e =>
    match e.set with
    | none => ([], some (.unsettableProperty prop_str))
    | some sa => sa.call e.cmd val

/-- `TC3625.set_by_dict` (tc3625.py lines 1135-1143): iterate over the
mapping (modelled as an association list in iteration order); for each key
first check membership in `method_dict`, raising `ValueError 'unknown
property'`, then call `set`.  An error aborts the remaining iterations;
the writes of earlier iterations remain issued. -/
def set_by_dict : List (String × Value) → List DevWrite × Option Err
  | [] => ([], none)
  | (k, v) :: rest =>
    if (pyDictGet METHOD_DICT k).isSome then
      match set k v with
      | (w, some e) => (w, some e)
      | (w, none) =>
        let r := set_by_dict rest
        (w ++ r.1, r.2)
    else ([], some (.unknownProperty k))

/-- The get accessor of a property applied to a raw device value
(the post-I/O part of the generated `get_*` methods). -/
def propGetOnRaw (prop_str : String) (raw : Int) : Option (Except Err GetResult) :=
  (pyDictGet METHOD_DICT prop_str).bind fun e => e.get.map fun g => g.onRaw raw

/-- The retry loop shared by `TC3625._get_value` (lines 1195-1211) and
`TC3625._set_value` (lines 1213-1229): `while cnt < max_attempt` attempt
the transport call, breaking on success and counting `IOError`s.  The
transport is modelled as an oracle `stub` from the attempt index to the
outcome of that `dev.read`/`dev.write` call.  Returns the value (if any)
and the number of transport calls made; fuel is `max_attempt - cnt`. -/
def attemptLoop (stub : Nat → Except Unit Int) : Nat → Nat → Option Int × Nat
  | 0, _ => (none, 0)
  | fuel + 1, cnt =>
    match stub cnt with
    | .ok v => (some v, 1)
    | .error _ =>
      let r := attemptLoop stub fuel (cnt + 1)
      (r.1, r.2 + 1)

/-- `TC3625._get_value`: retry `dev.read` up to `max_attempt` times; if the
loop exhausts (`cnt == max_attempt`) raise `IOError 'max attempts reached
for read'`.  Result paired with the number of transport calls. -/
def get_value (stub : Nat → Except Unit Int) (max_attempt : Nat) :
    Except Unit Int × Nat :=
  match attemptLoop stub max_attempt 0 with
  | (some v, calls) => (.ok v, calls)
  | (none, calls) => (.error (), calls)

/-- `TC3625._set_value`: identical retry discipline around `dev.write`;
the oracle models the outcome of each `dev.write(cmd, val)` attempt. -/
def set_value (stub : Nat → Except Unit Int) (max_attempt : Nat) :
    Except Unit Int × Nat :=
  match attemptLoop stub max_attempt 0 with
  | (some v, calls) => (.ok v, calls)
  | (none, calls) => (.error (), calls)

end TC3625

instance {ε α : Type} [DecidableEq ε] [DecidableEq α] : DecidableEq (Except ε α) := fun x y =>
  match x, y with
  | .ok a, .ok b => if h : a = b then isTrue (by rw [h]) else isFalse (by simp [h])
  | .error a, .error b => if h : a = b then isTrue (by rw [h]) else isFalse (by simp [h])
  | .ok _, .error _ => isFalse (by simp)
  | .error _, .ok _ => isFalse (by simp)

/-! ## Lemmas about the hex rendering -/

theorem hexChars_fuel : ∀ f g n, n < f → n < g → hexChars f n = hexChars g n := by
  intro f
  induction f with
  | zero => intro g n h; omega
  | succ f ih =>
    intro g n hf hg
    match g, hg with
    | g + 1, hg =>
      show hexChars (f + 1) n = hexChars (g + 1) n
      unfold hexChars
      by_cases h16 : n < 16
      · simp [h16]
      · have hn : 0 < n := by omega
        have hdiv : n / 16 < n := Nat.div_lt_self hn (by omega)
        simp only [h16, if_false]
        rw [ih g (n / 16) (by omega) (by omega)]

theorem hexStr_eq (n : Nat) :
    hexStr n =
      if n < 16 then [hexDigitChar n]
      else hexStr (n / 16) ++ [hexDigitChar (n % 16)] := by
  by_cases h16 : n < 16
  · simp [hexStr, hexChars, h16]
  · have hn : 0 < n := by omega
    have hdiv : n / 16 < n := Nat.div_lt_self hn (by omega)
    simp only [h16, if_false]
    show hexChars (n + 1) n = _
    unfold hexChars
    simp only [h16, if_false]
    rw [hexChars_fuel n (n / 16 + 1) (n / 16) (by omega) (by omega)]
    rfl

theorem hexStr_ne_nil (n : Nat) : hexStr n ≠ [] := by
  rw [hexStr_eq]
  by_cases h16 : n < 16 <;> simp [h16]

/-- Every hex rendering ends in the digit of `n % 16`. -/
theorem hexStr_last (n : Nat) :
    ∃ pre, hexStr n = pre ++ [hexDigitChar (n % 16)] := by
  rw [hexStr_eq]
  by_cases h16 : n < 16
  · exact ⟨[], by simp [h16, Nat.mod_eq_of_lt h16]⟩
  · exact ⟨hexStr (n / 16), by simp [h16]⟩

theorem hexCharVal_hexDigitChar : ∀ n, n < 16 → hexCharVal (hexDigitChar n) = some n := by
  decide

/-- Folding the parser over a rendered number, starting from any
accumulator. -/
theorem parse_fold_hexStr (n : Nat) : ∀ a : Nat,
    (hexStr n).foldl
        (fun acc c =>
          match acc, hexCharVal c with
          | some a, some d => some (16 * a + d)
          | _, _ => none)
        (some a)
      = some (a * 16 ^ (hexStr n).length + n) := by
  induction n using Nat.strong_induction_on with
  | _ n ih =>
    intro a
    by_cases h16 : n < 16
    · rw [hexStr_eq]
      simp [h16, List.foldl, hexCharVal_hexDigitChar n h16, Nat.mul_comm]
    · have hn : 0 < n := by omega
      have hdiv : n / 16 < n := Nat.div_lt_self hn (by omega)
      rw [hexStr_eq]
      simp only [h16, if_false]
      rw [List.foldl_append, ih (n / 16) hdiv a]
      have hlen : (hexStr (n / 16) ++ [hexDigitChar (n % 16)]).length
          = (hexStr (n / 16)).length + 1 := by simp
      simp only [List.foldl, hexCharVal_hexDigitChar (n % 16) (Nat.mod_lt n (by omega)), hlen]
      congr 1
      have : 16 * (n / 16) + n % 16 = n := Nat.div_add_mod n 16
      ring_nf
      omega

theorem parse_fold_replicate_zero (k : Nat) :
    (List.replicate k '0').foldl
        (fun acc c =>
          match acc, hexCharVal c with
          | some a, some d => some (16 * a + d)
          | _, _ => none)
        (some 0)
      = some 0 := by
  induction k with
  | zero => rfl
  | succ k ih =>
    rw [List.replicate_succ, List.foldl_cons]
    exact ih

/-- Parsing inverts rendering-with-zero-padding. -/
theorem parseHexChars_pad_hexStr (k : Nat) (n : Nat) :
    parseHexChars (List.replicate k '0' ++ hexStr n) = some n := by
  unfold parseHexChars
  rw [List.foldl_append, parse_fold_replicate_zero]
  have := parse_fold_hexStr n 0
  simpa using this

/-- `from_twoscomp` applied to a zero-padded hex rendering. -/
theorem from_twoscomp_pad (k n : Nat) :
    from_twoscomp ⟨List.replicate k '0' ++ hexStr n⟩
      = some (if 16 ^ 8 / 2 ≤ n then (n : Int) - 16 ^ 8 else (n : Int)) := by
  have hne : List.replicate k '0' ++ hexStr n ≠ [] := by
    intro h
    exact hexStr_ne_nil n (List.append_eq_nil.mp h).2
  show (if List.replicate k '0' ++ hexStr n = [] then none
        else match parseHexChars (List.replicate k '0' ++ hexStr n) with
          | none => none
          | some x2c =>
            some (if 16 ^ 8 / 2 ≤ x2c then (x2c : Int) - 16 ^ 8 else (x2c : Int)))
      = _
  rw [if_neg hne, parseHexChars_pad_hexStr]

/-- **C2.** For every signed 32-bit integer `x` (that is, `-2^31 ≤ x < 2^31`),
decoding the two's-complement encoding returns `x`:
`from_twoscomp (to_twoscomp x) = x`. -/
theorem claim_C2 (x : Int) (hlo : -(2 ^ 31) ≤ x) (hhi : x < 2 ^ 31) :
    from_twoscomp (to_twoscomp x) = some x := by
  have hpN : (16 : Nat) ^ 8 = 4294967296 := by norm_num
  have hpZ : (16 : Int) ^ 8 = 4294967296 := by norm_num
  have h31 : (2 : Int) ^ 31 = 2147483648 := by norm_num
  rw [h31] at hlo hhi
  by_cases hx : x < 0
  · have hrw : to_twoscomp x
        = ⟨List.replicate (8 - (hexStr ((16 ^ 8 : Int) + x).toNat).length) '0'
            ++ hexStr ((16 ^ 8 : Int) + x).toNat⟩ := by
      unfold to_twoscomp
      rw [if_pos hx]
    rw [hrw, from_twoscomp_pad, hpN, hpZ]
    rw [if_pos (by omega)]
    rw [Option.some_inj]
    omega
  · have hrw : to_twoscomp x
        = ⟨List.replicate (8 - (hexStr x.toNat).length) '0' ++ hexStr x.toNat⟩ := by
      unfold to_twoscomp
      rw [if_neg hx]
    rw [hrw, from_twoscomp_pad, hpN, hpZ]
    rw [if_neg (by omega)]
    rw [Option.some_inj]
    omega

/-- Witness for C2 at the set-point value `-2450`. -/
theorem claim_C2_witness : from_twoscomp (to_twoscomp (-2450)) = some (-2450) :=
  claim_C2 (-2450) (by norm_num) (by norm_num)

theorem takeLast_two_append (pre : List Char) (a b : Char) :
    takeLast 2 (pre ++ [a, b]) = [a, b] := by
  unfold takeLast
  have hlen : (pre ++ [a, b]).length - 2 = pre.length := by simp
  rw [hlen]
  exact List.drop_left pre [a, b]

/-- **C3 (counterexample).** The checksum of the empty character sequence is
the single character `"0"`, not a 2-character string: `get_checksum` never
left-pads, contradicting the claim that the result always has length 2. -/
theorem claim_C3_counterexample :
    get_checksum "" = "0" ∧ (get_checksum "").length = 1
      ∧ (get_checksum "").length ≠ 2 := by
  refine ⟨by decide, by decide, by decide⟩

/-- **C3 (amended).** `get_checksum` keeps the last two characters of the
*unpadded* lowercase hex rendering of the ordinal sum: when the sum is at
least 16 this is exactly the two-hex-digit rendering of `sum % 256`
(zero-padded below `0x10`) and has length 2, but when the sum is below 16
it is the single hex digit of the sum, of length 1. -/
theorem claim_C3_amended (s : String) :
    (16 ≤ csum s →
      get_checksum s
          = ⟨[hexDigitChar (csum s % 256 / 16), hexDigitChar (csum s % 256 % 16)]⟩
        ∧ (get_checksum s).length = 2)
    ∧ (csum s < 16 →
      get_checksum s = ⟨[hexDigitChar (csum s)]⟩ ∧ (get_checksum s).length = 1) := by
  constructor
  · intro h16
    have hsplit : hexStr (csum s)
        = hexStr (csum s / 16) ++ [hexDigitChar (csum s % 16)] := by
      rw [hexStr_eq]
      rw [if_neg (by omega)]
    obtain ⟨pre, hpre⟩ := hexStr_last (csum s / 16)
    have hdigits : hexStr (csum s)
        = pre ++ [hexDigitChar (csum s / 16 % 16), hexDigitChar (csum s % 16)] := by
      rw [hsplit, hpre, List.append_assoc]
      rfl
    have hget : get_checksum s
        = ⟨[hexDigitChar (csum s / 16 % 16), hexDigitChar (csum s % 16)]⟩ := by
      unfold get_checksum
      rw [hdigits, takeLast_two_append]
    have harith1 : csum s / 16 % 16 = csum s % 256 / 16 := by omega
    have harith2 : csum s % 16 = csum s % 256 % 16 := by omega
    rw [hget, harith1, harith2]
    exact ⟨rfl, rfl⟩
  · intro h16
    have hone : hexStr (csum s) = [hexDigitChar (csum s)] := by
      rw [hexStr_eq, if_pos h16]
    have hget : get_checksum s = ⟨[hexDigitChar (csum s)]⟩ := by
      unfold get_checksum
      rw [hone]
      rfl
    exact ⟨hget, by rw [hget]; rfl⟩

/-- Witness for the amended C3 at the sentinel field `"XXXXXXXX"`
(ordinal sum `704`, checksum `"c0"`). -/
theorem claim_C3_amended_witness :
    get_checksum "XXXXXXXX"
        = ⟨[hexDigitChar (csum "XXXXXXXX" % 256 / 16),
            hexDigitChar (csum "XXXXXXXX" % 256 % 16)]⟩
      ∧ (get_checksum "XXXXXXXX").length = 2 :=
  (claim_C3_amended "XXXXXXXX").1 (by decide)

/-- **C1 (counterexample).** A 12-byte reply whose value field is
`"XXXXXXXX"` but whose trailing checksum bytes are `"00"` (which does not
match `get_checksum("XXXXXXXX") = "c0"`) fails with the checksum-mismatch
error, not with the bad-receive-checksum error: the source compares the
checksum *before* testing the all-`X` sentinel. -/
theorem claim_C1_counterexample :
    dropLastN 3 ((("^XXXXXXXX00\r" : String).data).drop 1) = List.replicate 8 'X'
      ∧ parseReply ("^XXXXXXXX00\r" : String).data = .error .checksumMismatch
      ∧ parseReply ("^XXXXXXXX00\r" : String).data ≠ .error .badReceiveChecksum :=
  ⟨by decide, by decide, by decide⟩

/-- **C1 (amended).** For every 12-byte reply whose value field is the
sentinel `"XXXXXXXX"`: when the trailing 2-character checksum equals
`get_checksum("XXXXXXXX") = "c0"` parsing fails with the
bad-receive-checksum error, and otherwise it fails with the
checksum-mismatch error (the checksum comparison precedes the sentinel
test). -/
theorem claim_C1_amended (ret : List Char) (hlen : ret.length = 12)
    (hval : dropLastN 3 (ret.drop 1) = List.replicate 8 'X') :
    parseReply ret
      = .error (if takeLast 2 (dropLastN 1 ret) = ['c', '0']
                then SerErr.badReceiveChecksum else SerErr.checksumMismatch) := by
  have hc : get_checksum ⟨List.replicate 8 'X'⟩ = ⟨['c', '0']⟩ := by decide
  simp only [parseReply, hval, hc]
  by_cases hcs : takeLast 2 (dropLastN 1 ret) = ['c', '0']
  · rw [hcs]
    rw [if_neg (not_not_intro rfl)]
    simp
  · have hne : (⟨['c', '0']⟩ : String).data ≠ takeLast 2 (dropLastN 1 ret) :=
      fun h => hcs h.symm
    rw [if_pos hne, if_neg hcs]

/-- Witness for the amended C1: the sentinel reply with the matching
trailing checksum `"c0"`. -/
theorem claim_C1_amended_witness :
    parseReply ("^XXXXXXXXc0\r" : String).data
      = .error (if takeLast 2 (dropLastN 1 ("^XXXXXXXXc0\r" : String).data) = ['c', '0']
                then SerErr.badReceiveChecksum else SerErr.checksumMismatch) :=
  claim_C1_amended _ (by decide) (by decide)

/-- **C5.** Setting a numeric property configured with a range to a value
outside that range fails with the out-of-range error before the conversion
function is applied and before any transport write: the trace of issued
device writes is empty. -/
theorem claim_C5 (convert : Option (ℚ → ℚ)) (minval maxval : ℚ) (cmd : String)
    (val : ℚ) (h : val < minval ∨ maxval < val) :
    SetAccessor.call (.num convert (some (minval, maxval))) cmd (.num val)
      = ([], some Err.outOfRange) := by
  simp only [SetAccessor.call]
  rw [if_pos h]

/-- Witness for C5: the `'integral gain'` accessor (range `(0, 10)`)
rejects the value `11` with no writes. -/
theorem claim_C5_witness :
    SetAccessor.call (.num (some dec2intConv) (some INTEGRAL_GAIN_RANGE))
        "integral gain" (.num 11)
      = ([], some Err.outOfRange) :=
  claim_C5 (some dec2intConv) 0 10 "integral gain" 11 (Or.inr (by norm_num))

/-- **C8 (counterexample).** The `'alarm status'` bitmask accessor applied
to the raw value `5` does not return `(true, ["high", "computer"])`: the
name registered for bit 2 in `ALARM_VALUES` is `"computer controlled"`,
not `"computer"`. -/
theorem claim_C8_counterexample :
    getMaskOnRaw ALARM_VALUES 5 ≠ (true, ["high", "computer"]) := by
  decide

/-- **C8 (amended).** The `'alarm status'` bitmask accessor applied to the
raw value `5` (binary `101`) returns the flag `true` and the names of the
set bit indices 0 and 2, `["high", "computer controlled"]` (in the
mapping's iteration order, modelled as the table's declaration order). -/
theorem claim_C8_amended :
    getMaskOnRaw ALARM_VALUES 5 = (true, ["high", "computer controlled"]) := by
  decide

theorem foldl_pyDict_no_match {α β : Type} [DecidableEq α] (l : List (α × β)) (k : α)
    (h : ∀ p ∈ l, p.1 ≠ k) (acc : Option β) :
    l.foldl (fun acc p => if p.1 = k then some p.2 else acc) acc = acc := by
  induction l generalizing acc with
  | nil => rfl
  | cons p t ih =>
    rw [List.foldl_cons, if_neg (h p (List.mem_cons_self p t))]
    exact ih (fun q hq => h q (List.mem_cons_of_mem p hq)) acc

/-- Python-dict lookup finds the binding of a key when the keys are
pairwise distinct. -/
theorem pyDictGet_of_mem {α β : Type} [DecidableEq α] (l : List (α × β)) (k : α) (v : β)
    (hnodup : (l.map Prod.fst).Nodup) (hmem : (k, v) ∈ l) :
    pyDictGet l k = some v := by
  induction l with
  | nil => cases hmem
  | cons p t ih =>
    have hnodup' : (p.1 :: t.map Prod.fst).Nodup := by
      rw [List.map_cons] at hnodup
      exact hnodup
    have hnd := List.nodup_cons.mp hnodup'
    show List.foldl _ (if p.1 = k then some p.2 else none) t = some v
    by_cases hp : p.1 = k
    · have hk : ∀ q ∈ t, q.1 ≠ k := by
        intro q hq hqk
        exact hnd.1 (by
          rw [hp, ← hqk]
          exact List.mem_map_of_mem Prod.fst hq)
      rw [if_pos hp, foldl_pyDict_no_match t k hk]
      rcases List.mem_cons.mp hmem with heq | hmemt
      · rw [← heq]
      · exact absurd rfl (hk (k, v) hmemt)
    · rw [if_neg hp]
      have hmemt : (k, v) ∈ t := by
        rcases List.mem_cons.mp hmem with heq | hm
        · exact absurd (by rw [← heq]) hp
        · exact hm
      exact ih hnd.2 hmemt

/-- **C9.** The enum get accessor applied to a raw device integer that is
not a value of the property's name-to-int mapping fails with the
unknown-enum-value error (never coercing), and applied to a raw integer
that is a value of the (injective) mapping returns the corresponding
name. -/
theorem claim_C9 :
    (∀ (type : List (String × Int)) (raw : Int),
        (∀ p ∈ type, p.2 ≠ raw) →
        getTypeOnRaw type raw = .error Err.unknownEnumValue)
    ∧ (∀ (type : List (String × Int)) (raw : Int) (name : String),
        (type.map Prod.snd).Nodup → (name, raw) ∈ type →
        getTypeOnRaw type raw = .ok name) := by
  constructor
  · intro type raw h
    unfold getTypeOnRaw pyDictGet
    rw [foldl_pyDict_no_match _ raw
      (by
        intro q hq
        obtain ⟨p, hp, rfl⟩ := List.mem_map.mp hq
        exact h p hp)
      none]
  · intro type raw name hnodup hmem
    unfold getTypeOnRaw
    rw [pyDictGet_of_mem _ raw name
      (by rw [List.map_map]; exact hnodup)
      (List.mem_map.mpr ⟨(name, raw), hmem, rfl⟩)]

/-- Witness for C9 on the `'control type'` mapping: raw `7` is unknown,
raw `1` names `"PID"`. -/
theorem claim_C9_witness :
    getTypeOnRaw CONTROL_TYPES 7 = .error Err.unknownEnumValue
      ∧ getTypeOnRaw CONTROL_TYPES 1 = .ok "PID" :=
  ⟨claim_C9.1 CONTROL_TYPES 7 (by decide),
   claim_C9.2 CONTROL_TYPES 1 "PID" (by decide) (by decide)⟩

/-- **C4 (counterexample).** A mapping whose first key (`'power state'`) is
registered and whose second key (`'bogus'`) is not: `set_by_dict` issues
the write for the first key before failing on the second, so a write *is*
performed on a mapping containing an unrecognized key. -/
theorem claim_C4_counterexample :
    TC3625.set_by_dict [("power state", .str "on"), ("bogus", .num 0)]
      = ([("power on/off", 1)], some (Err.unknownProperty "bogus"))
      ∧ (TC3625.set_by_dict [("power state", .str "on"), ("bogus", .num 0)]).1 ≠ [] :=
  ⟨by decide, by decide⟩

/-- **C4 (amended).** `set_by_dict` validates keys one at a time,
interleaved with application, not validate-all-then-apply: it fails with
the unknown-property error upon reaching the first unrecognized key in
iteration order, with the sets of all earlier keys already applied.  In
particular no write is avoided unless the unrecognized key comes first;
when it does come first, the result is an immediate error with zero
writes. -/
theorem claim_C4_amended :
    (∀ (k : String) (v : Value) (rest : List (String × Value)),
        pyDictGet METHOD_DICT k = none →
        TC3625.set_by_dict ((k, v) :: rest) = ([], some (Err.unknownProperty k)))
    ∧ (∀ (k : String) (v : Value) (rest : List (String × Value)) (w : List DevWrite),
        TC3625.set k v = (w, none) →
        TC3625.set_by_dict ((k, v) :: rest)
          = (w ++ (TC3625.set_by_dict rest).1, (TC3625.set_by_dict rest).2)) := by
  constructor
  · intro k v rest h
    unfold TC3625.set_by_dict
    rw [h]
    rfl
  · intro k v rest w h
    cases hl : pyDictGet METHOD_DICT k with
    | none =>
      exfalso
      have hset : TC3625.set k v = ([], some (Err.unknownProperty k)) := by
        unfold TC3625.set
        rw [hl]
      rw [h] at hset
      exact Option.noConfusion (congrArg Prod.snd hset)
    | some e =>
      rw [show TC3625.set_by_dict ((k, v) :: rest)
            = if (pyDictGet METHOD_DICT k).isSome then
                match TC3625.set k v with
                | (w, some e) => (w, some e)
                | (w, none) =>
                  let r := TC3625.set_by_dict rest
                  (w ++ r.1, r.2)
              else ([], some (.unknownProperty k)) from rfl]
      rw [hl, h]
      rfl

/-- Witness for the amended C4: a single unknown key fails immediately
with zero writes. -/
theorem claim_C4_amended_witness :
    TC3625.set_by_dict [("bogus", Value.num 0)]
      = ([], some (Err.unknownProperty "bogus")) :=
  claim_C4_amended.1 "bogus" (Value.num 0) [] rfl

theorem attemptLoop_success (stub : Nat → Except Unit Int) (v : Int) :
    ∀ (fuel cnt k : Nat), k < fuel →
      (∀ i, i < k → stub (cnt + i) = .error ()) →
      stub (cnt + k) = .ok v →
      TC3625.attemptLoop stub fuel cnt = (some v, k + 1) := by
  intro fuel
  induction fuel with
  | zero => intro cnt k h; omega
  | succ fuel ih =>
    intro cnt k hk hfail hok
    cases k with
    | zero =>
      unfold TC3625.attemptLoop
      rw [show cnt + 0 = cnt from rfl] at hok
      rw [hok]
    | succ k =>
      unfold TC3625.attemptLoop
      have h0 : stub cnt = .error () := by
        have := hfail 0 (by omega)
        rw [show cnt + 0 = cnt from rfl] at this
        exact this
      rw [h0]
      have hrec := ih (cnt + 1) k (by omega)
        (fun i hi => by
          have := hfail (i + 1) (by omega)
          rw [show cnt + (i + 1) = cnt + 1 + i by omega] at this
          exact this)
        (by
          rw [show cnt + 1 + k = cnt + (k + 1) by omega]
          exact hok)
      rw [hrec]

theorem attemptLoop_all_fail (stub : Nat → Except Unit Int)
    (h : ∀ i, stub i = .error ()) :
    ∀ fuel cnt, TC3625.attemptLoop stub fuel cnt = (none, fuel) := by
  intro fuel
  induction fuel with
  | zero => intro cnt; rfl
  | succ fuel ih =>
    intro cnt
    unfold TC3625.attemptLoop
    rw [h cnt, ih (cnt + 1)]

/-- **C6.** For every `max_attempt ≥ 1`: if the transport fails with a
transient error on the first `k < max_attempt` calls and succeeds on call
`k+1`, the retrying get/set returns the success value after exactly `k+1`
transport calls; if the transport fails on every call, the operation
raises the max-attempts error after exactly `max_attempt` transport
calls. -/
theorem claim_C6 :
    (∀ (stub : Nat → Except Unit Int) (k : Nat) (v : Int) (max_attempt : Nat),
        k < max_attempt →
        (∀ i, i < k → stub i = .error ()) →
        stub k = .ok v →
        TC3625.get_value stub max_attempt = (.ok v, k + 1)
          ∧ TC3625.set_value stub max_attempt = (.ok v, k + 1))
    ∧ (∀ (stub : Nat → Except Unit Int) (max_attempt : Nat),
        1 ≤ max_attempt →
        (∀ i, stub i = .error ()) →
        TC3625.get_value stub max_attempt = (.error (), max_attempt)
          ∧ TC3625.set_value stub max_attempt = (.error (), max_attempt)) := by
  constructor
  · intro stub k v max_attempt hk hfail hok
    have hl := attemptLoop_success stub v max_attempt 0 k hk
      (fun i hi => by rw [Nat.zero_add]; exact hfail i hi)
      (by rw [Nat.zero_add]; exact hok)
    constructor
    · unfold TC3625.get_value
      rw [hl]
    · unfold TC3625.set_value
      rw [hl]
  · intro stub max_attempt h1 hfail
    have hl := attemptLoop_all_fail stub hfail max_attempt 0
    constructor
    · unfold TC3625.get_value
      rw [hl]
    · unfold TC3625.set_value
      rw [hl]

/-- Witness for C6: a stub failing on attempts 0 and 1 and succeeding on
attempt 2, with `max_attempt = 5`: success value `7` after 3 calls. -/
theorem claim_C6_witness :
    TC3625.get_value (fun i => if i < 2 then .error () else .ok 7) 5 = (.ok 7, 3)
      ∧ TC3625.set_value (fun i => if i < 2 then .error () else .ok 7) 5 = (.ok 7, 3) :=
  claim_C6.1 (fun i => if i < 2 then .error () else .ok 7) 2 7 5 (by decide)
    (by decide) (by decide)

/-- Python `int()` is the identity on integral rationals. -/
theorem pyInt_intCast (z : Int) : pyInt ((z : ℚ)) = z := by
  unfold pyInt
  rw [Rat.num_intCast, Rat.den_intCast]
  exact Int.tdiv_one z

theorem dec2int_249half : dec2int (49 / 2) = 2450 := by
  unfold dec2int
  rw [show (100 : ℚ) * (49 / 2) = ((2450 : Int) : ℚ) by norm_num]
  exact pyInt_intCast 2450

theorem int2dec_2450 : int2dec 2450 = 49 / 2 := by
  unfold int2dec
  norm_num

/-- **C7.** Setting `'setpt'` to the decimal value `24.50` (= 49/2)
converts it to the device integer `2450` and issues one write on the bound
command `'fixed desired control setting'`, whose wire frame carries the
two's-complement hex string `"00000992"`; conversely a reply value field
`"00000992"` decodes to `2450` and the `'setpt'` get accessor returns
`24.50`. -/
theorem claim_C7 :
    dec2int (49 / 2) = 2450
    ∧ TC3625.set "setpt" (.num (49 / 2))
        = ([("fixed desired control setting", 2450)], none)
    ∧ to_twoscomp 2450 = "00000992"
    ∧ serialWriteFrame "fixed desired control setting" 2450
        = some ("*001c0000099288\r" : String).data
    ∧ from_twoscomp "00000992" = some 2450
    ∧ TC3625.propGetOnRaw "setpt" 2450 = some (.ok (.num (49 / 2))) := by
  refine ⟨dec2int_249half, ?_, by decide, by decide, by decide, ?_⟩
  · show SetAccessor.call (.num (some dec2intConv) none)
        "fixed desired control setting" (.num (49 / 2)) = _
    simp only [SetAccessor.call]
    rw [show dec2intConv (49 / 2) = ((2450 : Int) : ℚ) by
      unfold dec2intConv
      rw [dec2int_249half]]
    rw [pyInt_intCast]
  · show some (Except.ok (GetResult.num (int2dec 2450)))
        = some (.ok (.num (49 / 2)))
    rw [int2dec_2450]

/-- **C10.** `'setpt'` and `'fixed control setting'` are aliases: both
entries of `METHOD_DICT` bind the same command `'fixed desired control
setting'` (write code `'1c'`, read code `'50'`) with the same conversions,
so their get accessors agree on every raw device value and their set
accessors issue identical write transactions for every input value. -/
theorem claim_C10 :
    (∀ raw : Int, TC3625.propGetOnRaw "setpt" raw
        = TC3625.propGetOnRaw "fixed control setting" raw)
    ∧ (∀ v : Value, TC3625.set "setpt" v = TC3625.set "fixed control setting" v)
    ∧ (pyDictGet METHOD_DICT "setpt").map MethodEntry.cmd
        = some "fixed desired control setting"
    ∧ (pyDictGet METHOD_DICT "fixed control setting").map MethodEntry.cmd
        = some "fixed desired control setting"
    ∧ pyDictGet SERIAL_CMDS "fixed desired control setting"
        = some ⟨some "1c", some "50"⟩ :=
  ⟨fun _ => rfl, fun _ => rfl, rfl, rfl, by decide⟩
